import Mathlib

/-!
# Verification of the nearcore compiled-contract cache (`runtime/near-vm-runner/src/cache.rs`)

A shallow embedding of the cache module: the fingerprinting scheme
(`ContractCacheKey` / `get_contract_cache_key`), the record codec
(`CacheRecord` with its borsh-style encoding), and the lookup/compile/store
control flow (`compile_and_serialize_wasmer{,2}`,
`compile_module_cached_wasmer{,2}_impl`, the `cached_key!` in-memory LRU
wrapper, and `precompile_contract_vm`).

External collaborators (the wasmer backends, the `prepare` pass, the
persistent key/value store) are modelled at their boundary as parameters:
the orchestrator definitions are parametric over a backend record and a
stateful cache port, exactly as the source is parametric over trait objects.
Machine bytes are modelled as `Nat` entries of lists; every definition is
executable.

Each step additionally records a trace of externally visible events
(backend compile invocations, port gets and puts, memory-cache hits), which
the theorems use to state "does not recompile" / "never touches the port"
properties. The traces are instrumentation only: they do not influence any
returned value or state.
-/

namespace NearCache

/-- Backend variants, from `VMKind` (`Wasmer0`, `Wasmer2`, `Wasmtime`). -/
inductive VMKind where
  | Wasmer0
  | Wasmer2
  | Wasmtime
deriving DecidableEq, Repr

/-- Modelled from the spec: `InstrumentationMode` (`GasCounterMode` in the
source's signatures) is a closed set of bytecode-instrumentation strategies;
the type itself lives in the external `near_vm_logic` crate. Two variants
suffice for the closed-set model. -/
inductive GasCounterMode where
  | HostFunction
  | FastGasCounter
deriving DecidableEq, Repr

/-- A 32-byte content hash, from `near_primitives::hash::CryptoHash`
(`key.0` / `key.as_ref()` expose the raw bytes). Bytes are `Nat`s. -/
structure CryptoHash where
  bytes : List Nat
deriving DecidableEq, Repr

/-- Modelled from the spec: `ContractCode` is an immutable bytecode blob plus
its content hash, computed once (the type lives in the external
`near_primitives` crate); the cache key consumes only `code.hash()` and the
compile path consumes only `code.code()`. -/
structure ContractCode where
  code : List Nat
  hash : CryptoHash
deriving DecidableEq, Repr

/-- Modelled from the spec: `VMConfig` (external `near_vm_logic` crate) is
reduced to its single non-cryptographic hash `config.non_crypto_hash()` for
fingerprinting; the rest of the configuration is only passed through to the
backend compile. -/
structure VMConfig where
  nonCryptoHash : Nat
deriving DecidableEq, Repr

/-- Cache-layer errors, from `near_vm_errors::CacheError`:
`ReadError`, `WriteError`, `DeserializationError`,
`SerializationError { hash }`. -/
inductive CacheError where
  | ReadError
  | WriteError
  | DeserializationError
  | SerializationError (hash : List Nat)
deriving DecidableEq, Repr

/-- Modelled from the spec: `VMError` (external `near_vm_errors` crate) is the
error type stored by `CacheRecord::Error`; for the cache module only its
`CacheError` variant is inspected, other variants (compile failures) are an
opaque error descriptor carried as bytes. -/
inductive VMError where
  | FunctionCallError (descr : List Nat)
  | CacheError (e : CacheError)
deriving DecidableEq, Repr

/-- `CacheRecord`: the tagged union persisted per fingerprint, either a
remembered compile failure or serialized compiled-artifact bytes. -/
inductive CacheRecord where
  | Error (e : VMError)
  | Code (code : List Nat)
deriving DecidableEq, Repr

/-- The versioned fingerprint record `ContractCacheKey`; `Version1`,
`_Version2` and `Version3` are retained (unused) to keep the tag-to-ordinal
mapping of prior variants stable. -/
inductive ContractCacheKey where
  | Version1 (code_hash : CryptoHash) (vm_config_non_crypto_hash : Nat) (vm_kind : VMKind)
  | Version2
  | Version3 (code_hash : CryptoHash) (vm_config_non_crypto_hash : Nat) (vm_kind : VMKind)
      (vm_hash : Nat)
  | Version4 (code_hash : CryptoHash) (vm_config_non_crypto_hash : Nat) (vm_kind : VMKind)
      (vm_hash : Nat) (gas_counter_mode : GasCounterMode)
deriving DecidableEq, Repr

/-! ## Borsh-style binary codec

Borsh lays out an enum as a one-byte variant tag followed by the fields in
order, a `u32`/`u64` as little-endian bytes, a `Vec<u8>` as a `u32` length
prefix followed by the raw bytes, and a `[u8; 32]` as the raw bytes with no
prefix. `try_from_slice` fails unless the whole input is consumed. -/

/-- Little-endian 4-byte layout of a `u32`. -/
def u32le (n : Nat) : List Nat :=
  [n % 256, n / 256 % 256, n / 65536 % 256, n / 16777216 % 256]

/-- Little-endian 8-byte layout of a `u64`. -/
def u64le (n : Nat) : List Nat :=
  [n % 256, n / 256 % 256, n / 65536 % 256, n / 16777216 % 256,
   n / 4294967296 % 256, n / 1099511627776 % 256,
   n / 281474976710656 % 256, n / 72057594037927936 % 256]

/-- Borsh `Vec<u8>`: `u32` length prefix, then the bytes. -/
def encodeVec (v : List Nat) : List Nat :=
  u32le v.length ++ v

/-- Borsh tag of a `VMKind` value (declaration order). -/
def vmKindTag : VMKind → Nat
  | .Wasmer0 => 0
  | .Wasmer2 => 1
  | .Wasmtime => 2

/-- Borsh tag of a `GasCounterMode` value. -/
def gasCounterModeTag : GasCounterMode → Nat
  | .HostFunction => 0
  | .FastGasCounter => 1

/-- Serialization of `CacheError` (tag, then fields; the
`SerializationError` hash is a raw 32-byte array). -/
def cacheErrorSerialize : CacheError → List Nat
  | .ReadError => [0]
  | .WriteError => [1]
  | .DeserializationError => [2]
  | .SerializationError h => 3 :: h

/-- Serialization of the modelled `VMError` (tag, then the variant payload). -/
def vmErrorSerialize : VMError → List Nat
  | .FunctionCallError d => 0 :: encodeVec d
  | .CacheError e => 1 :: cacheErrorSerialize e

/-- `CacheRecord::try_to_vec()`: tag 0 for `Error`, tag 1 for `Code`
(the declaration order of the source enum). -/
def cacheRecordSerialize : CacheRecord → List Nat
  | .Error e => 0 :: vmErrorSerialize e
  | .Code c => 1 :: encodeVec c

/-- `ContractCacheKey::try_to_vec()`: variant tag (`Version4` is ordinal 3),
then the fields in declaration order. -/
def contractCacheKeySerialize : ContractCacheKey → List Nat
  | .Version1 h cfg k => 0 :: h.bytes ++ u64le cfg ++ [vmKindTag k]
  | .Version2 => [1]
  | .Version3 h cfg k vh => 2 :: h.bytes ++ u64le cfg ++ [vmKindTag k] ++ u64le vh
  | .Version4 h cfg k vh g =>
      3 :: h.bytes ++ u64le cfg ++ [vmKindTag k] ++ u64le vh ++ [gasCounterModeTag g]

/-- Read a little-endian `u32` from the front of the input. -/
def decodeU32 : List Nat → Except Unit (Nat × List Nat)
  | b0 :: b1 :: b2 :: b3 :: rest =>
      .ok (b0 + 256 * b1 + 65536 * b2 + 16777216 * b3, rest)
  | _ => .error ()

/-- Read exactly `n` bytes from the front of the input. -/
def readBytes (n : Nat) (l : List Nat) : Except Unit (List Nat × List Nat) :=
  if n ≤ l.length then .ok (l.take n, l.drop n) else .error ()

/-- Decode a borsh `Vec<u8>` from the front of the input. -/
def decodeVec (l : List Nat) : Except Unit (List Nat × List Nat) :=
  match decodeU32 l with
  | .error _ => .error ()
  | .ok (n, rest) => readBytes n rest

/-- Decode a `CacheError` from the front of the input. -/
def cacheErrorDecode : List Nat → Except Unit (CacheError × List Nat)
  | 0 :: rest => .ok (.ReadError, rest)
  | 1 :: rest => .ok (.WriteError, rest)
  | 2 :: rest => .ok (.DeserializationError, rest)
  | 3 :: rest =>
      match readBytes 32 rest with
      | .error _ => .error ()
      | .ok (h, rest') => .ok (.SerializationError h, rest')
  | _ => .error ()

/-- Decode the modelled `VMError` from the front of the input. -/
def vmErrorDecode : List Nat → Except Unit (VMError × List Nat)
  | 0 :: rest =>
      match decodeVec rest with
      | .error _ => .error ()
      | .ok (d, rest') => .ok (.FunctionCallError d, rest')
  | 1 :: rest =>
      match cacheErrorDecode rest with
      | .error _ => .error ()
      | .ok (e, rest') => .ok (.CacheError e, rest')
  | _ => .error ()

/-- Decode a `CacheRecord` from the front of the input. -/
def cacheRecordDecode : List Nat → Except Unit (CacheRecord × List Nat)
  | 0 :: rest =>
      match vmErrorDecode rest with
      | .error _ => .error ()
      | .ok (e, rest') => .ok (.Error e, rest')
  | 1 :: rest =>
      match decodeVec rest with
      | .error _ => .error ()
      | .ok (c, rest') => .ok (.Code c, rest')
  | _ => .error ()

/-- `CacheRecord::try_from_slice`: decode and require the input to be fully
consumed, failing with a deserialization error otherwise. -/
def cacheRecordTryFromSlice (l : List Nat) : Except Unit CacheRecord :=
  match cacheRecordDecode l with
  | .ok (r, []) => .ok r
  | _ => .error ()

/-! ## Fingerprint builder -/

/-- The per-backend internal version probes (`wasmer0_vm_hash()`,
`wasmer2_vm_hash()`, `wasmtime_vm_hash()` live in the respective runner
modules outside this file); modelled as three opaque values. -/
structure VmHashParams where
  wasmer0Hash : Nat
  wasmer2Hash : Nat
  wasmtimeHash : Nat
deriving DecidableEq, Repr

/-- `vm_hash`: dispatch the version probe on the backend variant. -/
def vm_hash (p : VmHashParams) : VMKind → Nat
  | .Wasmer0 => p.wasmer0Hash
  | .Wasmer2 => p.wasmer2Hash
  | .Wasmtime => p.wasmtimeHash

/-- `get_contract_cache_key`: build the current `Version4` record from the
code hash, the config's non-cryptographic hash, the backend variant and its
version probe, and the instrumentation mode, serialize it, and hash the
serialized bytes. `hashFn` stands for `near_primitives::hash::hash`
(sha256, external to this file). -/
def get_contract_cache_key (hashFn : List Nat → CryptoHash) (p : VmHashParams)
    (code : ContractCode) (vm_kind : VMKind) (config : VMConfig)
    (gas_counter_mode : GasCounterMode) : CryptoHash :=
  let key := ContractCacheKey.Version4 code.hash config.nonCryptoHash vm_kind
    (vm_hash p vm_kind) gas_counter_mode
  hashFn (contractCacheKeySerialize key)

/-! ## Persistent cache port and event traces -/

/-- The `CompiledContractCache` trait boundary: `get` and `put` over opaque
byte keys and values, each independently fallible with an I/O error (the
error payload is irrelevant to the core and modelled as `Unit`). Calls may
observe and update the store's internal state `σ`. -/
structure Port (σ : Type) where
  get : σ → List Nat → (Except Unit (Option (List Nat))) × σ
  put : σ → List Nat → List Nat → (Except Unit Unit) × σ

/-- Externally visible events recorded by the instrumented control flow:
a backend compile invocation, a persistent-port `get`, a persistent-port
`put`, and a lookup in the in-memory bounded recency cache (hit or miss). -/
inductive Event where
  | compile
  | portGet
  | portPut
  | memHit
  | memMiss
deriving DecidableEq, Repr

/-- The wasmer 0.x backend boundary used by this module: `compile_module`'s
body (the external `prepare::prepare_contract` pass followed by
`wasmer_runtime::compile`), `module.cache()`, `artifact.serialize()`,
`Artifact::deserialize`, and `load_cache_with`. `M` is the opaque compiled
module type, `A` the opaque artifact type. -/
structure Wasmer0Backend (A M : Type) where
  compileModule : List Nat → VMConfig → GasCounterMode → Except VMError M
  moduleCache : M → Except Unit A
  artifactSerialize : A → Except Unit (List Nat)
  artifactDeserialize : List Nat → Except Unit A
  loadCache : A → Except Unit M

/-- The wasmer 2.x backend boundary: `compile_module_wasmer2`'s body
(prepare then `wasmer::Module::new`), `module.serialize()`, and
`wasmer::Module::deserialize`; each takes the `wasmer::Store` (opaque
type `S`). -/
structure Wasmer2Backend (S M : Type) where
  compileModule : List Nat → VMConfig → GasCounterMode → S → Except VMError M
  serializeModule : M → Except Unit (List Nat)
  deserializeModule : S → List Nat → Except Unit M

/-! ## Compile orchestrator (wasmer 0.x chain) -/

/-- `cache_error`: encode the compile failure as a `CacheRecord::Error` and
attempt to `put` it; a failed put reports `CacheError(WriteError)` instead
of the original error. -/
def cache_error {σ : Type} (port : Port σ) (error : VMError) (key : CryptoHash)
    (s : σ) : VMError × σ × List Event :=
  let record := CacheRecord.Error error
  match port.put s key.bytes (cacheRecordSerialize record) with
  | (.error _, s') => (VMError.CacheError CacheError.WriteError, s', [Event.portPut])
  | (.ok _, s') => (error, s', [Event.portPut])

/-- `compile_module` (wasmer 0.x): prepare and compile, recording the
backend invocation. -/
def compile_module {A M : Type} (B : Wasmer0Backend A M) (code : List Nat)
    (config : VMConfig) (g : GasCounterMode) : Except VMError M × List Event :=
  (B.compileModule code config g, [Event.compile])

/-- `compile_and_serialize_wasmer`: compile (routing a compile failure
through `cache_error`), serialize the module to artifact bytes (failures
become `SerializationError`), wrap them as a `CacheRecord::Code`, and `put`
the record (a put failure becomes `WriteError` and is propagated by `?`). -/
def compile_and_serialize_wasmer {σ A M : Type} (B : Wasmer0Backend A M)
    (port : Port σ) (wasm_code : List Nat) (config : VMConfig)
    (g : GasCounterMode) (key : CryptoHash) (s : σ) :
    Except VMError M × σ × List Event :=
  match compile_module B wasm_code config g with
  | (.error e, t) =>
      match cache_error port e key s with
      | (e', s', t') => (.error e', s', t ++ t')
  | (.ok module, t) =>
      match B.moduleCache module with
      | .error _ => (.error (VMError.CacheError (CacheError.SerializationError key.bytes)), s, t)
      | .ok artifact =>
          match B.artifactSerialize artifact with
          | .error _ =>
              (.error (VMError.CacheError (CacheError.SerializationError key.bytes)), s, t)
          | .ok code =>
              let serialized := cacheRecordSerialize (CacheRecord.Code code)
              match port.put s key.bytes serialized with
              | (.error _, s') =>
                  (.error (VMError.CacheError CacheError.WriteError), s', t ++ [Event.portPut])
              | (.ok _, s') => (.ok module, s', t ++ [Event.portPut])

/-- `deserialize_wasmer`: decode the `CacheRecord`; an `Error` record is
replayed as `Ok(Err(err))`, a `Code` record is deserialized into an artifact
and loaded; any decode or load failure is a `DeserializationError`. -/
def deserialize_wasmer {A M : Type} (B : Wasmer0Backend A M)
    (serialized : List Nat) : Except CacheError (Except VMError M) :=
  match cacheRecordTryFromSlice serialized with
  | .error _ => .error CacheError.DeserializationError
  | .ok (CacheRecord.Error err) => .ok (.error err)
  | .ok (CacheRecord.Code code) =>
      match B.artifactDeserialize code with
      | .error _ => .error CacheError.DeserializationError
      | .ok artifact =>
          match B.loadCache artifact with
          | .error _ => .error CacheError.DeserializationError
          | .ok module => .ok (.ok module)

/-- `compile_module_cached_wasmer_impl`: with no persistent cache, compile
directly; otherwise `get` the fingerprint (an I/O error becomes
`CacheError(ReadError)`), replay or deserialize a hit, and
compile-and-store on a miss. -/
def compile_module_cached_wasmer_impl {σ A M : Type} (B : Wasmer0Backend A M)
    (key : CryptoHash) (wasm_code : List Nat) (config : VMConfig)
    (g : GasCounterMode) (cache : Option (Port σ)) (s : σ) :
    Except VMError M × σ × List Event :=
  match cache with
  | none =>
      match compile_module B wasm_code config g with
      | (r, t) => (r, s, t)
  | some port =>
      match port.get s key.bytes with
      | (.ok (some serialized), s') =>
          match deserialize_wasmer B serialized with
          | .error ce => (.error (VMError.CacheError ce), s', [Event.portGet])
          | .ok inner => (inner, s', [Event.portGet])
      | (.ok none, s') =>
          match compile_and_serialize_wasmer B port wasm_code config g key s' with
          | (r, s'', t) => (r, s'', Event.portGet :: t)
      | (.error _, s') => (.error (VMError.CacheError CacheError.ReadError), s', [Event.portGet])

/-! ## Bounded recency cache (`cached_key!` with `SizedCache`) -/

/-- `CACHE_SIZE`: capacity of the in-memory bounded recency cache. -/
def CACHE_SIZE : Nat := 128

/-- The in-memory `MODULES` cache contents, most-recently-used first. -/
abbrev Memcache (M : Type) := List (CryptoHash × Except VMError M)

/-- Lookup in the recency cache. -/
def memLookup {M : Type} : Memcache M → CryptoHash → Option (Except VMError M)
  | [], _ => none
  | (k, v) :: rest, key => if k = key then some v else memLookup rest key

/-- Remove a key from the recency cache. -/
def memRemove {M : Type} : Memcache M → CryptoHash → Memcache M
  | [], _ => []
  | (k, v) :: rest, key =>
      if k = key then memRemove rest key else (k, v) :: memRemove rest key

/-- Refresh a key's recency after a hit (`SizedCache` moves it to
most-recently-used). -/
def memTouch {M : Type} (mem : Memcache M) (key : CryptoHash) : Memcache M :=
  match memLookup mem key with
  | some v => (key, v) :: memRemove mem key
  | none => mem

/-- Insert a resolved result at most-recently-used, evicting down to
`CACHE_SIZE` entries. -/
def memInsert {M : Type} (mem : Memcache M) (key : CryptoHash)
    (v : Except VMError M) : Memcache M :=
  ((key, v) :: memRemove mem key).take CACHE_SIZE

/-- `memcache_compile_module_cached_wasmer` (the `cached_key!` wrapper,
active when the `no_cache` feature is off): a hit on `key` in the shared
`MODULES` cache returns the stored result without running the body; a miss
runs `compile_module_cached_wasmer_impl` and stores its result. -/
def memcache_compile_module_cached_wasmer {σ A M : Type} (B : Wasmer0Backend A M)
    (key : CryptoHash) (wasm_code : List Nat) (config : VMConfig)
    (g : GasCounterMode) (cache : Option (Port σ)) (mem : Memcache M) (s : σ) :
    Except VMError M × Memcache M × σ × List Event :=
  match memLookup mem key with
  | some r => (r, memTouch mem key, s, [Event.memHit])
  | none =>
      match compile_module_cached_wasmer_impl B key wasm_code config g cache s with
      | (r, s', t) => (r, memInsert mem key r, s', Event.memMiss :: t)

/-- `compile_module_cached_wasmer0` (default build, `no_cache` feature off):
compute the fingerprint for `VMKind::Wasmer0` and resolve through the
in-memory recency cache. -/
def compile_module_cached_wasmer0 {σ A M : Type} (B : Wasmer0Backend A M)
    (hashFn : List Nat → CryptoHash) (p : VmHashParams) (code : ContractCode)
    (config : VMConfig) (cache : Option (Port σ)) (g : GasCounterMode)
    (mem : Memcache M) (s : σ) :
    Except VMError M × Memcache M × σ × List Event :=
  let key := get_contract_cache_key hashFn p code VMKind.Wasmer0 config g
  memcache_compile_module_cached_wasmer B key code.code config g cache mem s

/-! ## Compile orchestrator (wasmer 2.x chain) -/

/-- `compile_module_wasmer2`: prepare and compile against the store,
recording the backend invocation. -/
def compile_module_wasmer2 {S M : Type} (B : Wasmer2Backend S M) (code : List Nat)
    (config : VMConfig) (g : GasCounterMode) (store : S) :
    Except VMError M × List Event :=
  (B.compileModule code config g store, [Event.compile])

/-- `compile_and_serialize_wasmer2`: compile (routing a compile failure
through `cache_error`), serialize the module (failure becomes
`SerializationError`), wrap as `CacheRecord::Code` and `put` it (a put
failure becomes `WriteError` and is propagated by `?`). -/
def compile_and_serialize_wasmer2 {σ S M : Type} (B : Wasmer2Backend S M)
    (port : Port σ) (wasm_code : List Nat) (key : CryptoHash) (config : VMConfig)
    (g : GasCounterMode) (store : S) (s : σ) :
    Except VMError M × σ × List Event :=
  match compile_module_wasmer2 B wasm_code config g store with
  | (.error e, t) =>
      match cache_error port e key s with
      | (e', s', t') => (.error e', s', t ++ t')
  | (.ok module, t) =>
      match B.serializeModule module with
      | .error _ => (.error (VMError.CacheError (CacheError.SerializationError key.bytes)), s, t)
      | .ok code =>
          let serialized := cacheRecordSerialize (CacheRecord.Code code)
          match port.put s key.bytes serialized with
          | (.error _, s') =>
              (.error (VMError.CacheError CacheError.WriteError), s', t ++ [Event.portPut])
          | (.ok _, s') => (.ok module, s', t ++ [Event.portPut])

/-- `deserialize_wasmer2`: decode the `CacheRecord`; an `Error` record is
replayed, a `Code` record is deserialized against the store; failures become
`DeserializationError`. -/
def deserialize_wasmer2 {S M : Type} (B : Wasmer2Backend S M)
    (serialized : List Nat) (store : S) : Except CacheError (Except VMError M) :=
  match cacheRecordTryFromSlice serialized with
  | .error _ => .error CacheError.DeserializationError
  | .ok (CacheRecord.Error err) => .ok (.error err)
  | .ok (CacheRecord.Code code) =>
      match B.deserializeModule store code with
      | .error _ => .error CacheError.DeserializationError
      | .ok module => .ok (.ok module)

/-- `compile_module_cached_wasmer2_impl`: with no persistent cache, compile
directly; otherwise `get` the fingerprint (an I/O error becomes
`CacheError(ReadError)`), replay or deserialize a hit, and compile-and-store
on a miss. -/
def compile_module_cached_wasmer2_impl {σ S M : Type} (B : Wasmer2Backend S M)
    (key : CryptoHash) (wasm_code : List Nat) (config : VMConfig)
    (g : GasCounterMode) (cache : Option (Port σ)) (store : S) (s : σ) :
    Except VMError M × σ × List Event :=
  match cache with
  | none =>
      match compile_module_wasmer2 B wasm_code config g store with
      | (r, t) => (r, s, t)
  | some port =>
      match port.get s key.bytes with
      | (.ok (some serialized), s') =>
          match deserialize_wasmer2 B serialized store with
          | .error ce => (.error (VMError.CacheError ce), s', [Event.portGet])
          | .ok inner => (inner, s', [Event.portGet])
      | (.ok none, s') =>
          match compile_and_serialize_wasmer2 B port wasm_code key config g store s' with
          | (r, s'', t) => (r, s'', Event.portGet :: t)
      | (.error _, s') => (.error (VMError.CacheError CacheError.ReadError), s', [Event.portGet])

/-! ## Precompilation entrypoint -/

/-- `ContractPrecompilatonResult` (external `crate::errors`): outcome of a
precompilation request. -/
inductive ContractPrecompilatonResult where
  | CacheNotAvailable
  | ContractCompiled
  | ContractAlreadyInCache
deriving DecidableEq, Repr

/-- `ContractPrecompilatonError::new(err)` (external `crate::errors`):
wraps the `VMError` from the compile-and-store path. -/
structure ContractPrecompilatonError where
  err : VMError
deriving DecidableEq, Repr

/-- A returned value or a panic: `precompile_contract_vm` panics on the
`Wasmtime` arm (`panic!("Not yet supported")`). -/
inductive POutcome (α : Type) where
  | panics
  | returns (r : α)
deriving DecidableEq, Repr

/-- `precompile_contract_vm`: with no cache return `CacheNotAvailable`;
compute the fingerprint and `get` it — an existing entry returns
`ContractAlreadyInCache` untouched, while `Ok(None)` and `Err(_)` both fall
through to the per-backend compile-and-store; the `Wasmtime` arm panics. -/
def precompile_contract_vm {σ A M0 S M2 : Type} (B0 : Wasmer0Backend A M0)
    (B2 : Wasmer2Backend S M2) (defaultStore : S) (hashFn : List Nat → CryptoHash)
    (p : VmHashParams) (vm_kind : VMKind) (wasm_code : ContractCode)
    (config : VMConfig) (g : GasCounterMode) (cache : Option (Port σ)) (s : σ) :
    POutcome (Except ContractPrecompilatonError ContractPrecompilatonResult) × σ × List Event :=
  match cache with
  | none => (.returns (.ok ContractPrecompilatonResult.CacheNotAvailable), s, [])
  | some port =>
      let key := get_contract_cache_key hashFn p wasm_code vm_kind config g
      match port.get s key.bytes with
      | (.ok (some _), s') =>
          (.returns (.ok ContractPrecompilatonResult.ContractAlreadyInCache), s',
            [Event.portGet])
      | (_, s') =>
          match vm_kind with
          | VMKind.Wasmer0 =>
              match compile_and_serialize_wasmer B0 port wasm_code.code config g key s' with
              | (.ok _, s'', t) =>
                  (.returns (.ok ContractPrecompilatonResult.ContractCompiled), s'',
                    Event.portGet :: t)
              | (.error e, s'', t) =>
                  (.returns (.error ⟨e⟩), s'', Event.portGet :: t)
          | VMKind.Wasmer2 =>
              let store := defaultStore
              match compile_and_serialize_wasmer2 B2 port wasm_code.code key config g store s' with
              | (.ok _, s'', t) =>
                  (.returns (.ok ContractPrecompilatonResult.ContractCompiled), s'',
                    Event.portGet :: t)
              | (.error e, s'', t) =>
                  (.returns (.error ⟨e⟩), s'', Event.portGet :: t)
          | VMKind.Wasmtime => (.panics, s', [Event.portGet])

/-! ## Well-formedness of records producible by this system

Byte lists produced by this system have `u32`-representable lengths, and the
`SerializationError` hash is exactly 32 bytes (`key.0` of a `CryptoHash`). -/

/-- Well-formedness of a `CacheError` value producible by the system. -/
def cacheErrorWF : CacheError → Bool
  | .SerializationError h => h.length = 32
  | _ => true

/-- Well-formedness of a modelled `VMError` value producible by the system. -/
def vmErrorWF : VMError → Bool
  | .FunctionCallError d => d.length < 4294967296
  | .CacheError e => cacheErrorWF e

/-- Well-formedness of a `CacheRecord` value producible by the system. -/
def cacheRecordWF : CacheRecord → Bool
  | .Error e => vmErrorWF e
  | .Code c => c.length < 4294967296

/-! ## Concrete instantiations used by witnesses and counterexamples -/

/-- A concrete stand-in hash function for witnesses. -/
def idHash : List Nat → CryptoHash := fun l => ⟨l⟩

/-- Concrete backend version probes. -/
def vhParams : VmHashParams := ⟨10, 20, 30⟩

/-- A concrete 32-byte content hash. -/
def sampleHash : CryptoHash := ⟨List.replicate 32 7⟩

/-- A concrete contract. -/
def sampleCode : ContractCode := ⟨[0, 97, 115, 109], sampleHash⟩

/-- A concrete configuration. -/
def sampleConfig : VMConfig := ⟨42⟩

/-- A concrete fingerprint key. -/
def sampleKey : CryptoHash := ⟨List.replicate 32 1⟩

/-- A wasmer 0.x backend double whose compile always succeeds. -/
def okBackend0 : Wasmer0Backend Nat Nat :=
  ⟨fun _ _ _ => .ok 7, fun m => .ok m, fun a => .ok [a],
   fun l => .ok (l.headD 0), fun a => .ok a⟩

/-- A wasmer 0.x backend double whose compile always fails. -/
def badBackend0 : Wasmer0Backend Nat Nat :=
  ⟨fun _ _ _ => .error (VMError.FunctionCallError [5]), fun m => .ok m,
   fun a => .ok [a], fun l => .ok (l.headD 0), fun a => .ok a⟩

/-- A wasmer 2.x backend double whose compile always succeeds. -/
def okBackend2 : Wasmer2Backend Nat Nat :=
  ⟨fun _ _ _ _ => .ok 9, fun m => .ok [m], fun _ l => .ok (l.headD 0)⟩

/-- A persistent-store double: empty, all operations succeed. -/
def okPort : Port Nat := ⟨fun s _ => (.ok none, s), fun s _ _ => (.ok (), s + 1)⟩

/-- A persistent-store double whose `put` always fails. -/
def failPutPort : Port Nat := ⟨fun s _ => (.ok none, s), fun s _ _ => (.error (), s)⟩

/-- A persistent-store double whose `get` always fails. -/
def failGetPort : Port Nat := ⟨fun s _ => (.error (), s), fun s _ _ => (.ok (), s + 1)⟩

/-- A persistent-store double holding `v` under every key. -/
def storedPort (v : List Nat) : Port Nat :=
  ⟨fun s _ => (.ok (some v), s), fun s _ _ => (.ok (), s + 1)⟩

/-- Serialized failure record used by witnesses. -/
def errRecordBytes : List Nat :=
  cacheRecordSerialize (CacheRecord.Error (VMError.FunctionCallError [5]))

/-- Whether a result is a success (`Ok`). -/
def exceptIsOk {ε α : Type} : Except ε α → Bool
  | .ok _ => true
  | .error _ => false

/-- Whether an event trace records a backend compile invocation. -/
def traceCompiles : List Event → Bool
  | [] => false
  | Event.compile :: _ => true
  | _ :: rest => traceCompiles rest

/-! ## Codec lemmas -/

theorem decodeU32_u32le (n : Nat) (rest : List Nat) (h : n < 4294967296) :
    decodeU32 (u32le n ++ rest) = .ok (n, rest) := by
  simp only [u32le, List.cons_append, List.nil_append, decodeU32]
  congr 1
  congr 1
  omega

theorem readBytes_append (v rest : List Nat) :
    readBytes v.length (v ++ rest) = .ok (v, rest) := by
  simp [readBytes, List.take_left, List.drop_left]

theorem decodeVec_encodeVec (v rest : List Nat) (h : v.length < 4294967296) :
    decodeVec (encodeVec v ++ rest) = .ok (v, rest) := by
  simp only [decodeVec, encodeVec, List.append_assoc, decodeU32_u32le _ _ h]
  exact readBytes_append v rest

theorem cacheErrorDecode_serialize (e : CacheError) (rest : List Nat)
    (h : cacheErrorWF e = true) :
    cacheErrorDecode (cacheErrorSerialize e ++ rest) = .ok (e, rest) := by
  cases e with
  | ReadError => rfl
  | WriteError => rfl
  | DeserializationError => rfl
  | SerializationError hash =>
      simp only [cacheErrorWF, decide_eq_true_eq] at h
      simp only [cacheErrorSerialize, List.cons_append, cacheErrorDecode, ← h,
        readBytes_append]

theorem vmErrorDecode_serialize (e : VMError) (rest : List Nat)
    (h : vmErrorWF e = true) :
    vmErrorDecode (vmErrorSerialize e ++ rest) = .ok (e, rest) := by
  cases e with
  | FunctionCallError d =>
      simp only [vmErrorWF, decide_eq_true_eq] at h
      simp only [vmErrorSerialize, List.cons_append, vmErrorDecode,
        decodeVec_encodeVec _ _ h]
  | CacheError ce =>
      simp only [vmErrorWF] at h
      simp only [vmErrorSerialize, List.cons_append, vmErrorDecode,
        cacheErrorDecode_serialize _ _ h]

theorem cacheRecordDecode_serialize (r : CacheRecord) (rest : List Nat)
    (h : cacheRecordWF r = true) :
    cacheRecordDecode (cacheRecordSerialize r ++ rest) = .ok (r, rest) := by
  cases r with
  | Error e =>
      simp only [cacheRecordWF] at h
      simp only [cacheRecordSerialize, List.cons_append, cacheRecordDecode,
        vmErrorDecode_serialize _ _ h]
  | Code c =>
      simp only [cacheRecordWF, decide_eq_true_eq] at h
      simp only [cacheRecordSerialize, List.cons_append, cacheRecordDecode,
        decodeVec_encodeVec _ _ h]

/-- C8: for every `CacheRecord` value producible by this system (byte
payloads of `u32`-representable length, 32-byte error hashes), decoding the
bytes produced by encoding it yields exactly the original record:
`CacheRecord::try_from_slice(r.try_to_vec()) == Ok(r)`. -/
theorem cacheRecord_roundtrip (r : CacheRecord) (h : cacheRecordWF r = true) :
    cacheRecordTryFromSlice (cacheRecordSerialize r) = .ok r := by
  have hd := cacheRecordDecode_serialize r [] h
  rw [List.append_nil] at hd
  simp [cacheRecordTryFromSlice, hd]

/-- C8 witness: the round-trip, evaluated on a concrete failure record and a
concrete artifact record. -/
theorem cacheRecord_roundtrip_witness :
    cacheRecordWF (CacheRecord.Error (VMError.FunctionCallError [5])) = true ∧
    cacheRecordTryFromSlice
      (cacheRecordSerialize (CacheRecord.Error (VMError.FunctionCallError [5]))) =
      .ok (CacheRecord.Error (VMError.FunctionCallError [5])) :=
  ⟨by decide, cacheRecord_roundtrip _ (by decide)⟩

/-! ## Fingerprint determinism (C9) -/

/-- C9: `get_contract_cache_key` is deterministic and pure: with the
backend's `vm_hash` probes fixed, the fingerprint is a function of exactly
the code's content hash, the config's non-cryptographic hash, the backend
variant and the instrumentation mode — two calls whose inputs agree on
those components return the same fingerprint, whatever other state (code
bytes, unrelated config fields) differs. -/
theorem get_contract_cache_key_deterministic (hashFn : List Nat → CryptoHash)
    (p : VmHashParams) (c1 c2 : ContractCode) (cfg1 cfg2 : VMConfig)
    (k : VMKind) (g : GasCounterMode) (hc : c1.hash = c2.hash)
    (hcfg : cfg1.nonCryptoHash = cfg2.nonCryptoHash) :
    get_contract_cache_key hashFn p c1 k cfg1 g =
      get_contract_cache_key hashFn p c2 k cfg2 g := by
  simp [get_contract_cache_key, hc, hcfg]

/-- C9 witness: two contracts with the same content hash but different bytes
produce the same fingerprint. -/
theorem get_contract_cache_key_deterministic_witness :
    (ContractCode.mk [1, 2] sampleHash).hash = (ContractCode.mk [3] sampleHash).hash ∧
    (VMConfig.mk 42).nonCryptoHash = (VMConfig.mk 42).nonCryptoHash ∧
    get_contract_cache_key idHash vhParams (ContractCode.mk [1, 2] sampleHash)
        VMKind.Wasmer0 (VMConfig.mk 42) GasCounterMode.HostFunction =
      get_contract_cache_key idHash vhParams (ContractCode.mk [3] sampleHash)
        VMKind.Wasmer0 (VMConfig.mk 42) GasCounterMode.HostFunction :=
  ⟨by decide, by decide,
    get_contract_cache_key_deterministic idHash vhParams _ _ _ _ _ _
      (by decide) (by decide)⟩

/-! ## Failed-compile caching (C6) -/

/-- C6: when the compile on a cache miss itself fails, the failure is
encoded as a `CacheRecord::Error` and a `put` of that record is attempted;
if the put also fails the reported error is `CacheError(WriteError)` (the
write failure takes precedence), and if the put succeeds the original
compile error is reported unchanged. -/
theorem compile_failure_write_precedence {σ A M : Type} (B : Wasmer0Backend A M)
    (port : Port σ) (code : List Nat) (cfg : VMConfig) (g : GasCounterMode)
    (key : CryptoHash) (s : σ) (e : VMError)
    (hc : B.compileModule code cfg g = .error e) :
    (∀ u s', port.put s key.bytes (cacheRecordSerialize (CacheRecord.Error e)) =
        (.error u, s') →
      compile_and_serialize_wasmer B port code cfg g key s =
        (.error (VMError.CacheError CacheError.WriteError), s',
          [Event.compile, Event.portPut])) ∧
    (∀ s', port.put s key.bytes (cacheRecordSerialize (CacheRecord.Error e)) =
        (.ok (), s') →
      compile_and_serialize_wasmer B port code cfg g key s =
        (.error e, s', [Event.compile, Event.portPut])) := by
  constructor
  · intro u s' hp
    simp [compile_and_serialize_wasmer, compile_module, hc, cache_error, hp]
  · intro s' hp
    simp [compile_and_serialize_wasmer, compile_module, hc, cache_error, hp]

/-- C6 witness: a failing compile against a failing store reports
`WriteError`; against a working store it reports the original compile
error. -/
theorem compile_failure_write_precedence_witness :
    badBackend0.compileModule [0] sampleConfig GasCounterMode.HostFunction =
      .error (VMError.FunctionCallError [5]) ∧
    compile_and_serialize_wasmer badBackend0 failPutPort [0] sampleConfig
        GasCounterMode.HostFunction sampleKey 0 =
      (.error (VMError.CacheError CacheError.WriteError), 0,
        [Event.compile, Event.portPut]) ∧
    compile_and_serialize_wasmer badBackend0 okPort [0] sampleConfig
        GasCounterMode.HostFunction sampleKey 0 =
      (.error (VMError.FunctionCallError [5]), 1,
        [Event.compile, Event.portPut]) :=
  ⟨rfl,
    (compile_failure_write_precedence badBackend0 failPutPort [0] sampleConfig
      GasCounterMode.HostFunction sampleKey 0 (VMError.FunctionCallError [5])
      rfl).1 () 0 rfl,
    (compile_failure_write_precedence badBackend0 okPort [0] sampleConfig
      GasCounterMode.HostFunction sampleKey 0 (VMError.FunctionCallError [5])
      rfl).2 1 rfl⟩

/-! ## Put failure after a successful compile (C1) -/

/-- C1 counterexample: with valid bytecode (the backend compile succeeds)
and a persistent store whose `put` always errors,
`compile_and_serialize_wasmer` (the compile-and-store path of
`compile_module_cached_wasmer_impl`) returns
`Err(VMError::CacheError(WriteError))` — the caller does not receive the
freshly compiled module, contrary to the claim's "still returns the
successfully compiled module". -/
theorem put_failure_blanks_good_compile_cex :
    compile_and_serialize_wasmer okBackend0 failPutPort [0] sampleConfig
        GasCounterMode.HostFunction sampleKey 0 =
      (.error (VMError.CacheError CacheError.WriteError), 0,
        [Event.compile, Event.portPut]) ∧
    exceptIsOk (compile_and_serialize_wasmer okBackend0 failPutPort [0]
        sampleConfig GasCounterMode.HostFunction sampleKey 0).1 = false ∧
    exceptIsOk (okBackend0.compileModule [0] sampleConfig
        GasCounterMode.HostFunction) = true :=
  ⟨rfl, rfl, rfl⟩

/-- C1 amended: when the backend compile succeeds and serialization succeeds
but the persistent `put` fails, both `compile_and_serialize_wasmer` and
`compile_and_serialize_wasmer2` report `Err(VMError::CacheError(WriteError))`
to the immediate caller; the write failure overrides the successful compile
result (the module is dropped). -/
theorem put_failure_overrides_good_compile :
    (∀ (σ A M : Type) (B : Wasmer0Backend A M) (port : Port σ) (code : List Nat)
        (cfg : VMConfig) (g : GasCounterMode) (key : CryptoHash) (s : σ)
        (m : M) (a : A) (bytes : List Nat) (u : Unit) (s' : σ),
      B.compileModule code cfg g = .ok m →
      B.moduleCache m = .ok a →
      B.artifactSerialize a = .ok bytes →
      port.put s key.bytes (cacheRecordSerialize (CacheRecord.Code bytes)) =
        (.error u, s') →
      compile_and_serialize_wasmer B port code cfg g key s =
        (.error (VMError.CacheError CacheError.WriteError), s',
          [Event.compile, Event.portPut])) ∧
    (∀ (σ S M : Type) (B : Wasmer2Backend S M) (port : Port σ) (code : List Nat)
        (key : CryptoHash) (cfg : VMConfig) (g : GasCounterMode) (store : S)
        (s : σ) (m : M) (bytes : List Nat) (u : Unit) (s' : σ),
      B.compileModule code cfg g store = .ok m →
      B.serializeModule m = .ok bytes →
      port.put s key.bytes (cacheRecordSerialize (CacheRecord.Code bytes)) =
        (.error u, s') →
      compile_and_serialize_wasmer2 B port code key cfg g store s =
        (.error (VMError.CacheError CacheError.WriteError), s',
          [Event.compile, Event.portPut])) := by
  constructor
  · intro σ A M B port code cfg g key s m a bytes u s' hc ha hb hp
    simp [compile_and_serialize_wasmer, compile_module, hc, ha, hb, hp]
  · intro σ S M B port code key cfg g store s m bytes u s' hc hb hp
    simp [compile_and_serialize_wasmer2, compile_module_wasmer2, hc, hb, hp]

/-- C1 amended witness: the concrete always-failing-put run, through both
backend chains. -/
theorem put_failure_overrides_good_compile_witness :
    compile_and_serialize_wasmer okBackend0 failPutPort [0] sampleConfig
        GasCounterMode.FastGasCounter sampleKey 3 =
      (.error (VMError.CacheError CacheError.WriteError), 3,
        [Event.compile, Event.portPut]) ∧
    compile_and_serialize_wasmer2 okBackend2 failPutPort [0] sampleKey
        sampleConfig GasCounterMode.FastGasCounter 0 3 =
      (.error (VMError.CacheError CacheError.WriteError), 3,
        [Event.compile, Event.portPut]) :=
  ⟨put_failure_overrides_good_compile.1 Nat Nat Nat okBackend0 failPutPort [0]
      sampleConfig GasCounterMode.FastGasCounter sampleKey 3 7 7 [7] () 3
      rfl rfl rfl rfl,
    put_failure_overrides_good_compile.2 Nat Nat Nat okBackend2 failPutPort [0]
      sampleKey sampleConfig GasCounterMode.FastGasCounter 0 3 9 [9] () 3
      rfl rfl rfl⟩

/-! ## Failure-record replay (C3) -/

/-- C3: when the persistent entry for the fingerprint decodes to a
`CacheRecord::Error` record, `compile_module_cached_wasmer_impl` returns the
stored compile error and the event trace is exactly the port `get` — the
backend compile is not invoked. -/
theorem failure_record_replayed_without_compile {σ A M : Type}
    (B : Wasmer0Backend A M) (port : Port σ) (key : CryptoHash)
    (code : List Nat) (cfg : VMConfig) (g : GasCounterMode) (s : σ)
    (bytes : List Nat) (s' : σ) (e : VMError)
    (hg : port.get s key.bytes = (.ok (some bytes), s'))
    (hd : cacheRecordTryFromSlice bytes = .ok (CacheRecord.Error e)) :
    compile_module_cached_wasmer_impl B key code cfg g (some port) s =
      (.error e, s', [Event.portGet]) ∧
    Event.compile ∉ (compile_module_cached_wasmer_impl B key code cfg g
      (some port) s).2.2 := by
  have h : compile_module_cached_wasmer_impl B key code cfg g (some port) s =
      (.error e, s', [Event.portGet]) := by
    simp [compile_module_cached_wasmer_impl, hg, deserialize_wasmer, hd]
  exact ⟨h, by rw [h]; simp⟩

/-- C3 witness: a store holding a serialized failure record replays it. -/
theorem failure_record_replayed_without_compile_witness :
    (storedPort errRecordBytes).get 0 sampleKey.bytes =
      (.ok (some errRecordBytes), 0) ∧
    cacheRecordTryFromSlice errRecordBytes =
      .ok (CacheRecord.Error (VMError.FunctionCallError [5])) ∧
    compile_module_cached_wasmer_impl okBackend0 sampleKey [0] sampleConfig
        GasCounterMode.HostFunction (some (storedPort errRecordBytes)) 0 =
      (.error (VMError.FunctionCallError [5]), 0, [Event.portGet]) :=
  ⟨rfl, rfl,
    (failure_record_replayed_without_compile okBackend0
      (storedPort errRecordBytes) sampleKey [0] sampleConfig
      GasCounterMode.HostFunction 0 errRecordBytes 0
      (VMError.FunctionCallError [5]) rfl rfl).1⟩

/-! ## Read errors are surfaced, not treated as a miss (C4) -/

/-- C4: for both backend chains, when the persistent port's `get` returns an
I/O error, the cached-compile entry points return
`Err(VMError::CacheError(ReadError))` and the trace is exactly the `get` —
no compile is attempted, so a get failure is never treated as a miss. -/
theorem get_failure_surfaces_read_error :
    (∀ (σ A M : Type) (B : Wasmer0Backend A M) (port : Port σ)
        (key : CryptoHash) (code : List Nat) (cfg : VMConfig)
        (g : GasCounterMode) (s : σ) (u : Unit) (s' : σ),
      port.get s key.bytes = (.error u, s') →
      compile_module_cached_wasmer_impl B key code cfg g (some port) s =
        (.error (VMError.CacheError CacheError.ReadError), s', [Event.portGet])) ∧
    (∀ (σ S M : Type) (B : Wasmer2Backend S M) (port : Port σ)
        (key : CryptoHash) (code : List Nat) (cfg : VMConfig)
        (g : GasCounterMode) (store : S) (s : σ) (u : Unit) (s' : σ),
      port.get s key.bytes = (.error u, s') →
      compile_module_cached_wasmer2_impl B key code cfg g (some port) store s =
        (.error (VMError.CacheError CacheError.ReadError), s', [Event.portGet])) := by
  constructor
  · intro σ A M B port key code cfg g s u s' hg
    simp [compile_module_cached_wasmer_impl, hg]
  · intro σ S M B port key code cfg g store s u s' hg
    simp [compile_module_cached_wasmer2_impl, hg]

/-- C4 witness: the failing-get store surfaces `ReadError` through both
backend chains without compiling. -/
theorem get_failure_surfaces_read_error_witness :
    compile_module_cached_wasmer_impl okBackend0 sampleKey [0] sampleConfig
        GasCounterMode.HostFunction (some failGetPort) 0 =
      (.error (VMError.CacheError CacheError.ReadError), 0, [Event.portGet]) ∧
    compile_module_cached_wasmer2_impl okBackend2 sampleKey [0] sampleConfig
        GasCounterMode.HostFunction (some failGetPort) 0 0 =
      (.error (VMError.CacheError CacheError.ReadError), 0, [Event.portGet]) :=
  ⟨get_failure_surfaces_read_error.1 Nat Nat Nat okBackend0 failGetPort
      sampleKey [0] sampleConfig GasCounterMode.HostFunction 0 () 0 rfl,
    get_failure_surfaces_read_error.2 Nat Nat Nat okBackend2 failGetPort
      sampleKey [0] sampleConfig GasCounterMode.HostFunction 0 0 () 0 rfl⟩

/-! ## Unsupported backend is fatal (C7) -/

/-- C7: selecting `VMKind::Wasmtime` in `precompile_contract_vm` with a
persistent cache supplied, when the fingerprint lookup does not find an
existing entry, panics (`panic!("Not yet supported")`) instead of returning
any recoverable value. -/
theorem wasmtime_precompile_panics {σ A M0 S M2 : Type} (B0 : Wasmer0Backend A M0)
    (B2 : Wasmer2Backend S M2) (st : S) (hashFn : List Nat → CryptoHash)
    (p : VmHashParams) (code : ContractCode) (cfg : VMConfig)
    (g : GasCounterMode) (port : Port σ) (s : σ)
    (r : Except Unit (Option (List Nat))) (s' : σ)
    (hg : port.get s
      (get_contract_cache_key hashFn p code VMKind.Wasmtime cfg g).bytes = (r, s'))
    (hr : ∀ v, r ≠ .ok (some v)) :
    precompile_contract_vm B0 B2 st hashFn p VMKind.Wasmtime code cfg g
      (some port) s = (.panics, s', [Event.portGet]) := by
  cases r with
  | error u => simp [precompile_contract_vm, hg]
  | ok ov =>
      cases ov with
      | none => simp [precompile_contract_vm, hg]
      | some v => exact absurd rfl (hr v)

/-- C7 witness: the Wasmtime arm panics against an empty store. -/
theorem wasmtime_precompile_panics_witness :
    okPort.get 0 (get_contract_cache_key idHash vhParams sampleCode
      VMKind.Wasmtime sampleConfig GasCounterMode.HostFunction).bytes =
      (.ok none, 0) ∧
    precompile_contract_vm okBackend0 okBackend2 0 idHash vhParams
        VMKind.Wasmtime sampleCode sampleConfig GasCounterMode.HostFunction
        (some okPort) 0 =
      (.panics, 0, [Event.portGet]) :=
  ⟨rfl,
    wasmtime_precompile_panics okBackend0 okBackend2 0 idHash vhParams
      sampleCode sampleConfig GasCounterMode.HostFunction okPort 0 (.ok none) 0
      rfl (fun v h => by simp at h)⟩

/-! ## Dependence of the compile-and-store path on the port (helper) -/

theorem compile_and_serialize_wasmer_put_congr {σ A M : Type}
    (B : Wasmer0Backend A M) (port1 port2 : Port σ) (code : List Nat)
    (cfg : VMConfig) (g : GasCounterMode) (key : CryptoHash) (s : σ)
    (h : port1.put = port2.put) :
    compile_and_serialize_wasmer B port1 code cfg g key s =
      compile_and_serialize_wasmer B port2 code cfg g key s := by
  simp [compile_and_serialize_wasmer, cache_error, h]

theorem compile_and_serialize_wasmer2_put_congr {σ S M : Type}
    (B : Wasmer2Backend S M) (port1 port2 : Port σ) (code : List Nat)
    (key : CryptoHash) (cfg : VMConfig) (g : GasCounterMode) (store : S) (s : σ)
    (h : port1.put = port2.put) :
    compile_and_serialize_wasmer2 B port1 code key cfg g store s =
      compile_and_serialize_wasmer2 B port2 code key cfg g store s := by
  simp [compile_and_serialize_wasmer2, cache_error, h]

/-! ## Precompile treats a failing get as a miss (C10) -/

/-- C10: unlike the resolve path, `precompile_contract_vm` treats an I/O
error from the port's `get` exactly like an absent entry: with two ports
sharing one `put`, one whose `get` errors and one whose `get` reports no
entry, the outcome, final store state and event trace coincide — the error
falls through to compile-and-store, and (for a supported backend) the
backend compile is reached, so a failing get never produces a cache
read-error return. -/
theorem precompile_get_error_treated_as_miss {σ A M0 S M2 : Type}
    (B0 : Wasmer0Backend A M0) (B2 : Wasmer2Backend S M2) (st : S)
    (hashFn : List Nat → CryptoHash) (p : VmHashParams) (kind : VMKind)
    (code : ContractCode) (cfg : VMConfig) (g : GasCounterMode)
    (port1 port2 : Port σ) (s : σ) (u : Unit) (s' : σ)
    (hput : port1.put = port2.put)
    (hg1 : port1.get s
      (get_contract_cache_key hashFn p code kind cfg g).bytes = (.error u, s'))
    (hg2 : port2.get s
      (get_contract_cache_key hashFn p code kind cfg g).bytes = (.ok none, s')) :
    precompile_contract_vm B0 B2 st hashFn p kind code cfg g (some port1) s =
      precompile_contract_vm B0 B2 st hashFn p kind code cfg g (some port2) s ∧
    (kind = VMKind.Wasmer0 → ∃ rest,
      (precompile_contract_vm B0 B2 st hashFn p kind code cfg g
        (some port1) s).2.2 = Event.portGet :: Event.compile :: rest) := by
  constructor
  · cases kind with
    | Wasmer0 =>
        simp only [precompile_contract_vm, hg1, hg2]
        rw [compile_and_serialize_wasmer_put_congr B0 port1 port2 code.code cfg g
          (get_contract_cache_key hashFn p code VMKind.Wasmer0 cfg g) s' hput]
    | Wasmer2 =>
        simp only [precompile_contract_vm, hg1, hg2]
        rw [compile_and_serialize_wasmer2_put_congr B2 port1 port2 code.code
          (get_contract_cache_key hashFn p code VMKind.Wasmer2 cfg g) cfg g st s' hput]
    | Wasmtime => simp only [precompile_contract_vm, hg1, hg2]
  · rintro rfl
    simp only [precompile_contract_vm, hg1]
    rcases hc : B0.compileModule code.code cfg g with e | m
    · rcases hp : port1.put s'
        (get_contract_cache_key hashFn p code VMKind.Wasmer0 cfg g).bytes
        (cacheRecordSerialize (CacheRecord.Error e)) with ⟨pr, s''⟩
      cases pr <;>
        simp [compile_and_serialize_wasmer, compile_module, hc, cache_error, hp]
    · rcases hmc : B0.moduleCache m with a | a
      · simp [compile_and_serialize_wasmer, compile_module, hc, hmc]
      · rcases hsa : B0.artifactSerialize a with b | b
        · simp [compile_and_serialize_wasmer, compile_module, hc, hmc, hsa]
        · rcases hp : port1.put s'
            (get_contract_cache_key hashFn p code VMKind.Wasmer0 cfg g).bytes
            (cacheRecordSerialize (CacheRecord.Code b)) with ⟨pr, s''⟩
          cases pr <;>
            simp [compile_and_serialize_wasmer, compile_module, hc, hmc, hsa, hp]

/-- C10 witness: concrete failing-get and empty stores with a common `put`
give the same precompile outcome, and the failing-get run compiles. -/
theorem precompile_get_error_treated_as_miss_witness :
    precompile_contract_vm okBackend0 okBackend2 0 idHash vhParams
        VMKind.Wasmer0 sampleCode sampleConfig GasCounterMode.HostFunction
        (some failGetPort) 0 =
      precompile_contract_vm okBackend0 okBackend2 0 idHash vhParams
        VMKind.Wasmer0 sampleCode sampleConfig GasCounterMode.HostFunction
        (some okPort) 0 ∧
    (VMKind.Wasmer0 = VMKind.Wasmer0 → ∃ rest,
      (precompile_contract_vm okBackend0 okBackend2 0 idHash vhParams
        VMKind.Wasmer0 sampleCode sampleConfig GasCounterMode.HostFunction
        (some failGetPort) 0).2.2 = Event.portGet :: Event.compile :: rest) :=
  precompile_get_error_treated_as_miss okBackend0 okBackend2 0 idHash vhParams
    VMKind.Wasmer0 sampleCode sampleConfig GasCounterMode.HostFunction
    failGetPort okPort 0 () 0 rfl rfl rfl

/-! ## Precompilation entrypoint cases (C5) -/

/-- C5: `precompile_contract_vm` returns `CacheNotAvailable` when no
persistent cache is supplied; returns `ContractAlreadyInCache` without any
`put` when the port already holds an entry for the fingerprint (whatever its
content, failure records included); and otherwise, for the supported
backends, compiles and stores — returning `ContractCompiled` when
compile-and-store succeeds and wrapping its error otherwise. -/
theorem precompile_contract_vm_cases {σ A M0 S M2 : Type}
    (B0 : Wasmer0Backend A M0) (B2 : Wasmer2Backend S M2) (st : S)
    (hashFn : List Nat → CryptoHash) (p : VmHashParams) (code : ContractCode)
    (cfg : VMConfig) (g : GasCounterMode) (s : σ) :
    (∀ kind : VMKind,
      precompile_contract_vm B0 B2 st hashFn p kind code cfg g
        (none : Option (Port σ)) s =
        (.returns (.ok ContractPrecompilatonResult.CacheNotAvailable), s, [])) ∧
    (∀ (kind : VMKind) (port : Port σ) (v : List Nat) (s' : σ),
      port.get s (get_contract_cache_key hashFn p code kind cfg g).bytes =
        (.ok (some v), s') →
      precompile_contract_vm B0 B2 st hashFn p kind code cfg g (some port) s =
        (.returns (.ok ContractPrecompilatonResult.ContractAlreadyInCache), s',
          [Event.portGet])) ∧
    (∀ (port : Port σ) (s' : σ) (m : M0) (s'' : σ) (t : List Event),
      port.get s (get_contract_cache_key hashFn p code VMKind.Wasmer0 cfg g).bytes =
        (.ok none, s') →
      compile_and_serialize_wasmer B0 port code.code cfg g
        (get_contract_cache_key hashFn p code VMKind.Wasmer0 cfg g) s' =
        (.ok m, s'', t) →
      precompile_contract_vm B0 B2 st hashFn p VMKind.Wasmer0 code cfg g
        (some port) s =
        (.returns (.ok ContractPrecompilatonResult.ContractCompiled), s'',
          Event.portGet :: t)) ∧
    (∀ (port : Port σ) (s' : σ) (e : VMError) (s'' : σ) (t : List Event),
      port.get s (get_contract_cache_key hashFn p code VMKind.Wasmer0 cfg g).bytes =
        (.ok none, s') →
      compile_and_serialize_wasmer B0 port code.code cfg g
        (get_contract_cache_key hashFn p code VMKind.Wasmer0 cfg g) s' =
        (.error e, s'', t) →
      precompile_contract_vm B0 B2 st hashFn p VMKind.Wasmer0 code cfg g
        (some port) s =
        (.returns (.error ⟨e⟩), s'', Event.portGet :: t)) ∧
    (∀ (port : Port σ) (s' : σ) (m : M2) (s'' : σ) (t : List Event),
      port.get s (get_contract_cache_key hashFn p code VMKind.Wasmer2 cfg g).bytes =
        (.ok none, s') →
      compile_and_serialize_wasmer2 B2 port code.code
        (get_contract_cache_key hashFn p code VMKind.Wasmer2 cfg g) cfg g st s' =
        (.ok m, s'', t) →
      precompile_contract_vm B0 B2 st hashFn p VMKind.Wasmer2 code cfg g
        (some port) s =
        (.returns (.ok ContractPrecompilatonResult.ContractCompiled), s'',
          Event.portGet :: t)) ∧
    (∀ (port : Port σ) (s' : σ) (e : VMError) (s'' : σ) (t : List Event),
      port.get s (get_contract_cache_key hashFn p code VMKind.Wasmer2 cfg g).bytes =
        (.ok none, s') →
      compile_and_serialize_wasmer2 B2 port code.code
        (get_contract_cache_key hashFn p code VMKind.Wasmer2 cfg g) cfg g st s' =
        (.error e, s'', t) →
      precompile_contract_vm B0 B2 st hashFn p VMKind.Wasmer2 code cfg g
        (some port) s =
        (.returns (.error ⟨e⟩), s'', Event.portGet :: t)) := by
  refine ⟨fun kind => rfl, ?_, ?_, ?_, ?_, ?_⟩
  · intro kind port v s' hg
    simp [precompile_contract_vm, hg]
  · intro port s' m s'' t hg hc
    simp [precompile_contract_vm, hg, hc]
  · intro port s' e s'' t hg hc
    simp [precompile_contract_vm, hg, hc]
  · intro port s' m s'' t hg hc
    simp [precompile_contract_vm, hg, hc]
  · intro port s' e s'' t hg hc
    simp [precompile_contract_vm, hg, hc]

/-- C5 witness: the three outcomes on concrete stores — no cache, an
occupied store (holding a failure record and left unwritten), and an empty
store that gets compiled into, plus the propagated compile error. -/
theorem precompile_contract_vm_cases_witness :
    precompile_contract_vm okBackend0 okBackend2 0 idHash vhParams
        VMKind.Wasmer0 sampleCode sampleConfig GasCounterMode.HostFunction
        (none : Option (Port Nat)) 0 =
      (.returns (.ok ContractPrecompilatonResult.CacheNotAvailable), 0, []) ∧
    precompile_contract_vm okBackend0 okBackend2 0 idHash vhParams
        VMKind.Wasmer0 sampleCode sampleConfig GasCounterMode.HostFunction
        (some (storedPort errRecordBytes)) 0 =
      (.returns (.ok ContractPrecompilatonResult.ContractAlreadyInCache), 0,
        [Event.portGet]) ∧
    precompile_contract_vm okBackend0 okBackend2 0 idHash vhParams
        VMKind.Wasmer0 sampleCode sampleConfig GasCounterMode.HostFunction
        (some okPort) 0 =
      (.returns (.ok ContractPrecompilatonResult.ContractCompiled), 1,
        [Event.portGet, Event.compile, Event.portPut]) ∧
    precompile_contract_vm badBackend0 okBackend2 0 idHash vhParams
        VMKind.Wasmer0 sampleCode sampleConfig GasCounterMode.HostFunction
        (some okPort) 0 =
      (.returns (.error ⟨VMError.FunctionCallError [5]⟩), 1,
        [Event.portGet, Event.compile, Event.portPut]) :=
  ⟨(precompile_contract_vm_cases okBackend0 okBackend2 0 idHash vhParams
      sampleCode sampleConfig GasCounterMode.HostFunction 0).1 VMKind.Wasmer0,
    (precompile_contract_vm_cases okBackend0 okBackend2 0 idHash vhParams
      sampleCode sampleConfig GasCounterMode.HostFunction 0).2.1 VMKind.Wasmer0
      (storedPort errRecordBytes) errRecordBytes 0 rfl,
    (precompile_contract_vm_cases okBackend0 okBackend2 0 idHash vhParams
      sampleCode sampleConfig GasCounterMode.HostFunction 0).2.2.1 okPort 0 7 1
      [Event.compile, Event.portPut] rfl rfl,
    (precompile_contract_vm_cases badBackend0 okBackend2 0 idHash vhParams
      sampleCode sampleConfig GasCounterMode.HostFunction 0).2.2.2.1 okPort 0
      (VMError.FunctionCallError [5]) 1 [Event.compile, Event.portPut] rfl rfl⟩

/-! ## The no-persistent-cache path and the recency cache (C2) -/

theorem memLookup_memInsert {M : Type} (mem : Memcache M) (key : CryptoHash)
    (v : Except VMError M) :
    memLookup (memInsert mem key v) key = some v := by
  unfold memInsert CACHE_SIZE
  rw [show (128 : Nat) = 127 + 1 from rfl, List.take_succ_cons]
  simp [memLookup]

/-- C2 counterexample: in the default build `compile_module_cached_wasmer0`
resolves through the `cached_key!` recency cache even with
`persistent_cache = None`: a first call on concrete inputs populates the
in-memory cache (its lookup misses and an entry appears), and a second call
with the same inputs is served by a recency-cache hit whose trace contains
no backend compile — contradicting "never touches the Bounded Recency
Cache" and "two successive calls ... both invoke the backend compile". -/
theorem no_cache_path_memcache_cex :
    (memLookup (compile_module_cached_wasmer0 okBackend0 idHash vhParams
        sampleCode sampleConfig (none : Option (Port Nat))
        GasCounterMode.HostFunction [] 0).2.1
      (get_contract_cache_key idHash vhParams sampleCode VMKind.Wasmer0
        sampleConfig GasCounterMode.HostFunction)).isSome = true ∧
    (compile_module_cached_wasmer0 okBackend0 idHash vhParams sampleCode
        sampleConfig (none : Option (Port Nat)) GasCounterMode.HostFunction
        (compile_module_cached_wasmer0 okBackend0 idHash vhParams sampleCode
          sampleConfig (none : Option (Port Nat)) GasCounterMode.HostFunction
          [] 0).2.1 0).2.2.2 = [Event.memHit] ∧
    traceCompiles
      (compile_module_cached_wasmer0 okBackend0 idHash vhParams sampleCode
        sampleConfig (none : Option (Port Nat)) GasCounterMode.HostFunction
        (compile_module_cached_wasmer0 okBackend0 idHash vhParams sampleCode
          sampleConfig (none : Option (Port Nat)) GasCounterMode.HostFunction
          [] 0).2.1 0).2.2.2 = false :=
  ⟨rfl, rfl, rfl⟩

/-- C2 amended: with `persistent_cache = None` the inner resolution
`compile_module_cached_wasmer_impl` compiles directly via the backend and
never touches the persistent port (its trace is exactly one backend
compile); but the default-build entry point wraps it in the bounded recency
cache, so after a first call that misses that cache, a second call with the
same fingerprint is answered from the recency cache with the stored result
and no backend compile. -/
theorem no_cache_path_amended :
    (∀ (σ A M : Type) (B : Wasmer0Backend A M) (key : CryptoHash)
        (code : List Nat) (cfg : VMConfig) (g : GasCounterMode) (s : σ),
      compile_module_cached_wasmer_impl B key code cfg g
        (none : Option (Port σ)) s =
        (B.compileModule code cfg g, s, [Event.compile])) ∧
    (∀ (σ A M : Type) (B : Wasmer0Backend A M) (key : CryptoHash)
        (code : List Nat) (cfg : VMConfig) (g : GasCounterMode)
        (cache : Option (Port σ)) (mem : Memcache M) (s : σ),
      memLookup mem key = none →
      (memcache_compile_module_cached_wasmer B key code cfg g cache mem s).2.2.2 =
        Event.memMiss ::
          (compile_module_cached_wasmer_impl B key code cfg g cache s).2.2 ∧
      ∀ s2 : σ,
        memcache_compile_module_cached_wasmer B key code cfg g cache
          (memcache_compile_module_cached_wasmer B key code cfg g cache mem s).2.1
          s2 =
        ((memcache_compile_module_cached_wasmer B key code cfg g cache mem s).1,
          memTouch
            (memcache_compile_module_cached_wasmer B key code cfg g cache mem s).2.1
            key,
          s2, [Event.memHit])) := by
  constructor
  · intro σ A M B key code cfg g s
    rfl
  · intro σ A M B key code cfg g cache mem s hmiss
    rcases hi : compile_module_cached_wasmer_impl B key code cfg g cache s
      with ⟨ri, si, ti⟩
    refine ⟨?_, ?_⟩
    · simp [memcache_compile_module_cached_wasmer, hmiss, hi]
    · intro s2
      simp [memcache_compile_module_cached_wasmer, hmiss, hi,
        memLookup_memInsert]

/-- C2 amended witness: the concrete two-call run — direct compile with no
port events on the first resolution, recency-cache hit on the second. -/
theorem no_cache_path_amended_witness :
    compile_module_cached_wasmer_impl okBackend0 sampleKey [0] sampleConfig
        GasCounterMode.HostFunction (none : Option (Port Nat)) 0 =
      (.ok 7, 0, [Event.compile]) ∧
    memLookup ([] : Memcache Nat) sampleKey = none ∧
    (memcache_compile_module_cached_wasmer okBackend0 sampleKey [0]
        sampleConfig GasCounterMode.HostFunction (none : Option (Port Nat))
        [] 0).2.2.2 =
      Event.memMiss ::
        (compile_module_cached_wasmer_impl okBackend0 sampleKey [0]
          sampleConfig GasCounterMode.HostFunction
          (none : Option (Port Nat)) 0).2.2 ∧
    memcache_compile_module_cached_wasmer okBackend0 sampleKey [0] sampleConfig
        GasCounterMode.HostFunction (none : Option (Port Nat))
        (memcache_compile_module_cached_wasmer okBackend0 sampleKey [0]
          sampleConfig GasCounterMode.HostFunction (none : Option (Port Nat))
          [] 0).2.1 5 =
      ((memcache_compile_module_cached_wasmer okBackend0 sampleKey [0]
          sampleConfig GasCounterMode.HostFunction (none : Option (Port Nat))
          [] 0).1,
        memTouch
          (memcache_compile_module_cached_wasmer okBackend0 sampleKey [0]
            sampleConfig GasCounterMode.HostFunction (none : Option (Port Nat))
            [] 0).2.1
          sampleKey,
        5, [Event.memHit]) :=
  ⟨no_cache_path_amended.1 Nat Nat Nat okBackend0 sampleKey [0] sampleConfig
      GasCounterMode.HostFunction 0,
    rfl,
    (no_cache_path_amended.2 Nat Nat Nat okBackend0 sampleKey [0] sampleConfig
      GasCounterMode.HostFunction (none : Option (Port Nat)) [] 0 rfl).1,
    (no_cache_path_amended.2 Nat Nat Nat okBackend0 sampleKey [0] sampleConfig
      GasCounterMode.HostFunction (none : Option (Port Nat)) [] 0 rfl).2 5⟩

end NearCache
